import Mathlib

/-!
Shallow embedding of `src/ffi/c/nvme_shim.c` and `src/ffi/c/nvme_shim.h`
(hyperpolymath/ochrance-framework): a thin C shim for NVMe device access
with three entry points, `ochrance_nvme_read_smart`, `ochrance_nvme_read_block`
and `ochrance_nvme_write_block`, each returning 0 on success and a negative
errno on failure.

The underlying platform (open, pread, pwrite, the admin ioctl) is modelled
by a `Dev` record: a byte-addressable backing store plus outcome functions
for each primitive, so failure modes (missing device, permission, read-only
target, short transfer) are injected by choosing a `Dev`.  Machine integers
are modelled as `Nat`/`Int` with explicit reduction mod 2^64 where the C code
can overflow (the `lba * block_size` product in `uint64_t`, cast to `off_t`).
-/

namespace NvmeShim

/-! ### errno constants (Linux values, as used by the shim) -/

def EINVAL : Nat := 22
def ENOENT : Nat := 2
def EACCES : Nat := 13
def EROFS : Nat := 30
def EFAULT : Nat := 14

/-- Linux errno for an input/output error, returned by the shim as `-EIO`
on a short transfer or failed transfer. -/
def eioErrno : Nat := 5

/-! ### C struct layout

The header declares `ochrance_smart_info_t` as a plain (non-packed) C struct.
We model each member with its declared byte width and its natural alignment
on the target ABI (x86-64 System V: scalar alignment equals size), in the
exact order of `nvme_shim.h` lines 25-36, and compute member offsets and
`sizeof` by the standard C layout algorithm (each member placed at the next
offset aligned to its alignment; the struct size rounded up to the maximum
member alignment).  The packed (contiguous) layout of the defining NVMe
log page is computed alongside for comparison. -/

structure CField where
  fname : String
  width : Nat
  align : Nat
deriving DecidableEq, Repr

/-- Members of `ochrance_smart_info_t`, in declaration order
(nvme_shim.h lines 26-35). -/
def smartFields : List CField :=
  [ ⟨"critical_warning", 1, 1⟩,
    ⟨"composite_temperature", 2, 2⟩,
    ⟨"available_spare", 1, 1⟩,
    ⟨"available_spare_threshold", 1, 1⟩,
    ⟨"percentage_used", 1, 1⟩,
    ⟨"data_units_read", 8, 8⟩,
    ⟨"data_units_written", 8, 8⟩,
    ⟨"power_on_hours", 8, 8⟩,
    ⟨"unsafe_shutdowns", 4, 4⟩,
    ⟨"media_errors", 4, 4⟩ ]

/-- Round `n` up to the next multiple of `a` (C member alignment). -/
def alignUp (n a : Nat) : Nat := ((n + a - 1) / a) * a

/-- Offsets assigned to each member by the C layout algorithm, starting
from a current offset `cur`. -/
def cOffsetsFrom : List CField → Nat → List (String × Nat)
  | [], _ => []
  | f :: fs, cur =>
    let o := alignUp cur f.align
    (f.fname, o) :: cOffsetsFrom fs (o + f.width)

/-- End offset (offset one past the last member) under the C layout. -/
def cEndFrom : List CField → Nat → Nat
  | [], cur => cur
  | f :: fs, cur => cEndFrom fs (alignUp cur f.align + f.width)

/-- Largest member alignment of the struct. -/
def maxAlign (fs : List CField) : Nat := fs.foldl (fun a f => max a f.align) 1

/-- `sizeof` of the C struct: end offset rounded up to the struct alignment. -/
def structSizeof (fs : List CField) : Nat := alignUp (cEndFrom fs 0) (maxAlign fs)

/-- Offset of a named member under the C layout. -/
def cFieldOffset (fs : List CField) (nm : String) : Option Nat :=
  (cOffsetsFrom fs 0).lookup nm

/-- Offsets in the defining (packed, contiguous) log-page layout: each
field immediately follows the previous one, with no padding. -/
def packedOffsetsFrom : List CField → Nat → List (String × Nat)
  | [], _ => []
  | f :: fs, cur => (f.fname, cur) :: packedOffsetsFrom fs (cur + f.width)

/-- Offset of a named field in the packed defining layout. -/
def packedFieldOffset (fs : List CField) (nm : String) : Option Nat :=
  (packedOffsetsFrom fs 0).lookup nm

/-- Total size of the packed defining layout: the sum of the field widths. -/
def packedSize (fs : List CField) : Nat := fs.foldl (fun a f => a + f.width) 0

/-! ### The NVMe admin command built by `ochrance_nvme_read_smart`

`nvme_shim.c` lines 37-43: the command is zeroed, then `opcode`, `nsid`,
`addr`, `data_len` and `cdw10` are set.  `sizeof(*info)` is the C struct
size computed above. -/

structure AdminCmd where
  opcode : Nat
  nsid : Nat
  addr : Nat
  data_len : Nat
  cdw10 : Nat
deriving DecidableEq, Repr

/-- The Get Log Page admin command constructed by `ochrance_nvme_read_smart`
for an output buffer at address `addr` (nvme_shim.c lines 37-43). -/
def smartCmd (addr : Nat) : AdminCmd :=
  { opcode := 0x02
    nsid := 0xFFFFFFFF
    addr := addr
    data_len := structSizeof smartFields
    cdw10 := Nat.lor 0x02 (Nat.shiftLeft (structSizeof smartFields / 4 - 1) 16) }

/-- Return of `ioctl(fd, NVME_IOCTL_ADMIN_CMD, &cmd)`, which is
three-valued on Linux: a negative return with `errno` set (a driver-level
failure), zero (the command succeeded), or a positive NVMe completion
status — the device itself reporting that the command failed at the
hardware level (the convention of the kernel's `nvme_user_cmd` and of
nvme-cli). -/
inductive AdminRet where
  /-- Negative ioctl return; `errno` holds the (positive) error code. -/
  | err (errno : Nat)
  /-- Zero return: the admin command completed successfully. -/
  | ok
  /-- Positive return `st > 0`: the NVMe completion status of a command
  the device failed at the hardware level. -/
  | hwStatus (st : Nat)
deriving DecidableEq, Repr

/-! ### Platform model

A `Dev` packages the device-side behaviour the shim interacts with through
the platform: the byte-addressable backing store, the outcome of `open` in
each mode (success, or a positive errno), the outcome of `pread`/`pwrite`
at a given offset and count (a positive errno, or the byte count actually
transferred), the outcome of the `NVME_IOCTL_ADMIN_CMD` ioctl (its full
three-valued return, `AdminRet`), and the
log-page bytes the ioctl deposits on success.  Data movement itself is
deterministic: a `pread` that reports `n` bytes transferred delivers the
store's bytes at offsets `off, off+1, ..., off+n-1`; a `pwrite` that
reports `n` stores the first `n` bytes of its data at those offsets. -/

structure Dev where
  /-- Byte content of the backing store at each byte offset. -/
  store : Int → Nat
  /-- Outcome of `open(path, O_RDONLY)`: `none` is success, `some e` is
  failure with errno `e`.  The path argument is `none` for a NULL path,
  whose open outcome is platform-defined. -/
  openRO : Option String → Option Nat
  /-- Outcome of `open(path, O_WRONLY)`. -/
  openWO : Option String → Option Nat
  /-- Outcome of `pread(fd, buf, count, off)`: errno, or bytes transferred. -/
  preadN : Int → Nat → Except Nat Nat
  /-- Outcome of `pwrite(fd, buf, count, off)`: errno, or bytes transferred. -/
  pwriteN : Int → Nat → Except Nat Nat
  /-- Outcome of `ioctl(fd, NVME_IOCTL_ADMIN_CMD, &cmd)`: the full
  three-valued return convention of the Linux NVMe passthrough ioctl. -/
  admin : AdminCmd → AdminRet
  /-- Byte content of the SMART/Health log page the ioctl writes into the
  caller's buffer on success (index = byte position within the page). -/
  smartLog : Nat → Nat

/-! ### 64-bit offset arithmetic

`nvme_shim.c` lines 60 and 78: `off_t offset = (off_t)(lba * block_size);`.
`lba` is `uint64_t` and `block_size` is `size_t` (64-bit); the product is
taken mod 2^64, and the conversion to the signed 64-bit `off_t` wraps
values at or above 2^63 to negatives (the implementation-defined behaviour
of the target compiler). -/

/-- Interpret a machine word mod 2^64 as a signed 64-bit value. -/
def toInt64 (n : Nat) : Int :=
  let m : Nat := n % 2 ^ 64
  if m < 2 ^ 63 then (m : Int) else (m : Int) - 2 ^ 64

/-- The byte offset the shim passes to `pread`/`pwrite` for a given
`lba` and `block_size`. -/
def blockOffset (lba block_size : Nat) : Int := toInt64 (lba * block_size)

/-- Overwrite the prefix of a caller buffer with transferred data
(a `pread` moving `data.length` bytes into the start of the buffer). -/
def writeBytes (buf data : List Nat) : List Nat :=
  data ++ buf.drop data.length

/-- The bytes obtained from the store by a transfer of `n` bytes starting
at byte offset `off`. -/
def readData (store : Int → Nat) (off : Int) (n : Nat) : List Nat :=
  (List.range n).map (fun (i : Nat) => store (off + (i : Int)))

/-- The store after `data` is written starting at byte offset `off`. -/
def updStore (store : Int → Nat) (off : Int) (data : List Nat) : Int → Nat :=
  fun o =>
    if h : 0 ≤ o - off ∧ (o - off).toNat < data.length
    then data.get ⟨(o - off).toNat, h.2⟩
    else store o

/-! ### Embedding of the three entry points

Each embedded function returns the C status (`Int`), the caller's buffer
content after the call, the device state after the call, the number of
`open` attempts made, and a trace of the positioned transfers or admin
commands issued, so that claims about offsets, command fields and
buffer framing can be stated directly. -/

structure BlockResult where
  status : Int
  buffer : Option (List Nat)
  dev : Dev
  opens : Nat
  /-- Trace of `pread` calls issued, as (offset, count) pairs. -/
  preads : List (Int × Nat)
  /-- Trace of `pwrite` calls issued, as (offset, count) pairs. -/
  pwrites : List (Int × Nat)

structure SmartResult where
  status : Int
  infoBuf : List Nat
  opens : Nat
  /-- Trace of admin commands issued through the ioctl. -/
  cmds : List AdminCmd

/-- Embedding of `open_nvme` (nvme_shim.c lines 22-27): NULL path is
rejected with `-EINVAL` before any open; otherwise the open outcome is
mapped to `-errno` on failure.  Returns the status (0 on success) paired
with the number of open attempts. -/
def open_nvme (dev : Dev) (path : Option String) : Except (Int × Nat) Nat :=
  match path with
  | none => Except.error (-(EINVAL : Int), 0)
  | some p =>
    match dev.openRO (some p) with
    | some e => Except.error (-(e : Int), 1)
    | none => Except.ok 1

/-- Embedding of `ochrance_nvme_read_smart` (nvme_shim.c lines 29-49).
`info` is the address of the caller's output buffer (`none` for NULL) and
`infoBuf` its current byte content.  The final line of the C function is
`return (ret < 0) ? -errno : 0;` — only a negative ioctl return is mapped
to a failure status, so a positive NVMe completion status (the device
failing the command at the hardware level, with no log page deposited)
falls into the `: 0` branch and is returned as success. -/
def ochrance_nvme_read_smart (dev : Dev) (path : Option String)
    (info : Option Nat) (infoBuf : List Nat) : SmartResult :=
  match info with
  | none => ⟨-(EINVAL : Int), infoBuf, 0, []⟩
  | some addr =>
    match open_nvme dev path with
    | Except.error (st, n) => ⟨st, infoBuf, n, []⟩
    | Except.ok n =>
      let cmd := smartCmd addr
      match dev.admin cmd with
      | AdminRet.err e => ⟨-(e : Int), infoBuf, n, [cmd]⟩
      | AdminRet.ok =>
        ⟨0, (List.range cmd.data_len).map dev.smartLog ++
            infoBuf.drop cmd.data_len, n, [cmd]⟩
      | AdminRet.hwStatus _ => ⟨0, infoBuf, n, [cmd]⟩

/-- Embedding of `ochrance_nvme_read_block` (nvme_shim.c lines 51-67). -/
def ochrance_nvme_read_block (dev : Dev) (path : Option String) (lba : Nat)
    (buffer : Option (List Nat)) (block_size : Nat) : BlockResult :=
  match buffer with
  | none => ⟨-(EINVAL : Int), none, dev, 0, [], []⟩
  | some buf =>
    if block_size = 0 then ⟨-(EINVAL : Int), some buf, dev, 0, [], []⟩
    else
      match dev.openRO path with
      | some e => ⟨-(e : Int), some buf, dev, 1, [], []⟩
      | none =>
        let offset := blockOffset lba block_size
        match dev.preadN offset block_size with
        | Except.error e => ⟨-(e : Int), some buf, dev, 1, [(offset, block_size)], []⟩
        | Except.ok n =>
          let buf' := writeBytes buf (readData dev.store offset n)
          if n ≠ block_size
          then ⟨-(eioErrno : Int), some buf', dev, 1, [(offset, block_size)], []⟩
          else ⟨0, some buf', dev, 1, [(offset, block_size)], []⟩

/-- Embedding of `ochrance_nvme_write_block` (nvme_shim.c lines 69-85).
The caller's buffer is read-only to the shim (`const void *`): every
branch returns it unchanged. -/
def ochrance_nvme_write_block (dev : Dev) (path : Option String) (lba : Nat)
    (buffer : Option (List Nat)) (block_size : Nat) : BlockResult :=
  match buffer with
  | none => ⟨-(EINVAL : Int), none, dev, 0, [], []⟩
  | some buf =>
    if block_size = 0 then ⟨-(EINVAL : Int), some buf, dev, 0, [], []⟩
    else
      match dev.openWO path with
      | some e => ⟨-(e : Int), some buf, dev, 1, [], []⟩
      | none =>
        let offset := blockOffset lba block_size
        match dev.pwriteN offset block_size with
        | Except.error e => ⟨-(e : Int), some buf, dev, 1, [], [(offset, block_size)]⟩
        | Except.ok n =>
          let dev' := { dev with
            store := updStore dev.store offset ((buf.take block_size).take n) }
          if n ≠ block_size
          then ⟨-(eioErrno : Int), some buf, dev', 1, [], [(offset, block_size)]⟩
          else ⟨0, some buf, dev', 1, [], [(offset, block_size)]⟩

/-! ### Concrete mock devices for witnesses and counterexamples -/

/-- A fully well-behaved mock device: every open succeeds, every transfer
moves exactly the requested bytes, the admin command succeeds. -/
def mockDev : Dev :=
  { store := fun o => o.toNat % 256
    openRO := fun _ => none
    openWO := fun _ => none
    preadN := fun _ c => Except.ok c
    pwriteN := fun _ c => Except.ok c
    admin := fun _ => AdminRet.ok
    smartLog := fun i => i % 256 }

/-- A platform on which `open(NULL, ...)` fails with `EFAULT` (the Linux
behaviour for a NULL path): the shim's block operations pass a NULL path
straight to `open` without checking it. -/
def nullPathDev : Dev :=
  { mockDev with
    openRO := fun p => if p = none then some EFAULT else none
    openWO := fun p => if p = none then some EFAULT else none }

/-- A mock device whose admin ioctl fails at the driver level: negative
return with errno 5 (an input/output error). -/
def adminFailDev : Dev :=
  { mockDev with admin := fun _ => AdminRet.err eioErrno }

/-- A mock device whose admin ioctl returns a positive NVMe completion
status (0x109): the device reports the command failed at the hardware
level. -/
def hwFailDev : Dev :=
  { mockDev with admin := fun _ => AdminRet.hwStatus 0x109 }

/-- A mock device whose transfers are short by one byte. -/
def shortDev : Dev :=
  { mockDev with
    preadN := fun _ c => Except.ok (c - 1)
    pwriteN := fun _ c => Except.ok (c - 1) }

/-- A read-only target: opening for writing fails with `EROFS`. -/
def roDev : Dev :=
  { mockDev with openWO := fun _ => some EROFS }

/-- A nonexistent device: every open fails with `ENOENT`. -/
def absentDev : Dev :=
  { mockDev with
    openRO := fun _ => some ENOENT
    openWO := fun _ => some ENOENT }

/-! ### Helper lemmas -/

/-- When the product fits in a signed 64-bit offset, the shim's offset
computation is the exact integer product. -/
lemma blockOffset_of_fit (lba bs : Nat) (h : lba * bs < 2 ^ 63) :
    blockOffset lba bs = ((lba * bs : Nat) : Int) := by
  unfold blockOffset toInt64
  have h64 : lba * bs < 2 ^ 64 := lt_trans h (by norm_num)
  simp only [Nat.mod_eq_of_lt h64]
  rw [if_pos h]

/-- Shape of a fully successful `ochrance_nvme_read_block` call. -/
lemma read_block_ok (dev : Dev) (p : String) (lba : Nat) (buf : List Nat)
    (bs : Nat) (hbs : bs ≠ 0) (hro : dev.openRO (some p) = none)
    (hpr : dev.preadN (blockOffset lba bs) bs = Except.ok bs) :
    ochrance_nvme_read_block dev (some p) lba (some buf) bs =
      ⟨0, some (writeBytes buf (readData dev.store (blockOffset lba bs) bs)),
        dev, 1, [(blockOffset lba bs, bs)], []⟩ := by
  simp [ochrance_nvme_read_block, hbs, hro, hpr]

/-- Shape of a fully successful `ochrance_nvme_write_block` call. -/
lemma write_block_ok (dev : Dev) (p : String) (lba : Nat) (buf : List Nat)
    (bs : Nat) (hbs : bs ≠ 0) (hwo : dev.openWO (some p) = none)
    (hpw : dev.pwriteN (blockOffset lba bs) bs = Except.ok bs) :
    ochrance_nvme_write_block dev (some p) lba (some buf) bs =
      ⟨0, some buf,
        { dev with store := updStore dev.store (blockOffset lba bs)
                     ((buf.take bs).take bs) },
        1, [], [(blockOffset lba bs, bs)]⟩ := by
  simp [ochrance_nvme_write_block, hbs, hwo, hpw]

/-- Whenever the open succeeds, `ochrance_nvme_read_block` issues exactly
one `pread`, at `blockOffset lba bs` for `bs` bytes. -/
lemma read_block_preads (dev : Dev) (path : Option String) (lba : Nat)
    (buf : List Nat) (bs : Nat) (hbs : bs ≠ 0) (hro : dev.openRO path = none) :
    (ochrance_nvme_read_block dev path lba (some buf) bs).preads
      = [(blockOffset lba bs, bs)] := by
  simp only [ochrance_nvme_read_block, hro, if_neg hbs]
  cases dev.preadN (blockOffset lba bs) bs with
  | error e => rfl
  | ok n =>
    dsimp only
    split <;> rfl

/-- Whenever the open succeeds, `ochrance_nvme_write_block` issues exactly
one `pwrite`, at `blockOffset lba bs` for `bs` bytes. -/
lemma write_block_pwrites (dev : Dev) (path : Option String) (lba : Nat)
    (buf : List Nat) (bs : Nat) (hbs : bs ≠ 0) (hwo : dev.openWO path = none) :
    (ochrance_nvme_write_block dev path lba (some buf) bs).pwrites
      = [(blockOffset lba bs, bs)] := by
  simp only [ochrance_nvme_write_block, hwo, if_neg hbs]
  cases dev.pwriteN (blockOffset lba bs) bs with
  | error e => rfl
  | ok n =>
    dsimp only
    split <;> rfl

/-- Writing back the bytes read from a range leaves the store unchanged
at every offset. -/
lemma updStore_readData (store : Int → Nat) (off : Int) (n : Nat) (o : Int) :
    updStore store off (readData store off n) o = store o := by
  unfold updStore readData
  split
  case isTrue h =>
    rw [List.get_eq_getElem]
    simp only [List.getElem_map, List.getElem_range]
    congr 1
    omega
  case isFalse h => rfl

/-- `readData` only depends on the store's values at the offsets read. -/
lemma readData_congr (s1 s2 : Int → Nat) (off : Int) (n : Nat)
    (h : ∀ o, s1 o = s2 o) : readData s1 off n = readData s2 off n := by
  simp [readData, h]

/-! ### Claims -/

/-- C4: the claim asserts the `ochrance_smart_info_t` struct is laid out
contiguously, byte-matching the defining NVMe SMART/Health log page.  The
C struct, however, carries no packed attribute, so the C layout algorithm
inserts padding: `composite_temperature` sits at offset 2 (the defining
layout places it at offset 1), and `sizeof` is 40 while the contiguous
defining layout occupies 38 bytes.  This theorem evaluates both layouts
and records the mismatch: the code contradicts its own header comment
("Mirrors the NVMe SMART/Health Information Log"). -/
theorem C4_layout_mismatch :
    structSizeof smartFields = 40 ∧ packedSize smartFields = 38 ∧
    cFieldOffset smartFields "composite_temperature" = some 2 ∧
    packedFieldOffset smartFields "composite_temperature" = some 1 ∧
    structSizeof smartFields ≠ packedSize smartFields := by
  decide

/-- C7: every admin command issued by `ochrance_nvme_read_smart` is a Get
Log Page command (opcode 0x02) requesting Log ID 0x02 (low byte of cdw10)
across all namespaces (nsid all-ones), whose number-of-dwords field (bits
16-31 of cdw10) is the SmartInfo size in 4-byte words minus one, with the
transfer directed into the caller's output buffer and sized to the
SmartInfo layout. -/
theorem C7_admin_cmd_fields (dev : Dev) (path : Option String) (addr : Nat)
    (infoBuf : List Nat) (c : AdminCmd)
    (hc : c ∈ (ochrance_nvme_read_smart dev path (some addr) infoBuf).cmds) :
    c.opcode = 0x02 ∧ c.nsid = 0xFFFFFFFF ∧
    c.cdw10 % 2 ^ 8 = 0x02 ∧
    c.cdw10 / 2 ^ 16 % 2 ^ 16 = structSizeof smartFields / 4 - 1 ∧
    c.addr = addr ∧ c.data_len = structSizeof smartFields := by
  have hcs : c = smartCmd addr := by
    unfold ochrance_nvme_read_smart at hc
    rcases hop : open_nvme dev path with ⟨st, n⟩ | n <;> rw [hop] at hc
    · simp at hc
    · rcases hadm : dev.admin (smartCmd addr) with e | _ | s <;>
        simp only [hadm] at hc <;> simpa using hc
  subst hcs
  refine ⟨rfl, rfl, ?_, ?_, rfl, rfl⟩ <;> (simp only [smartCmd]; decide)

/-- Witness for C7 at a concrete device, path and buffer address. -/
theorem C7_admin_cmd_fields_witness :
    (smartCmd 100).opcode = 0x02 ∧ (smartCmd 100).nsid = 0xFFFFFFFF ∧
    (smartCmd 100).cdw10 % 2 ^ 8 = 0x02 ∧
    (smartCmd 100).cdw10 / 2 ^ 16 % 2 ^ 16 = structSizeof smartFields / 4 - 1 ∧
    (smartCmd 100).addr = 100 ∧ (smartCmd 100).data_len = structSizeof smartFields :=
  C7_admin_cmd_fields mockDev (some "d") 100 [] (smartCmd 100) (by decide)

/-- C3: the claim requires every driver/hardware-level failure of the Get
Log Page admin command to yield a negative status, never success.  The
Linux passthrough ioctl is three-valued: a positive return is the NVMe
completion status of a command the device failed at the hardware level.
The shim's final line `return (ret < 0) ? -errno : 0;` (nvme_shim.c:48)
maps that positive return to 0: on a device whose admin command fails
with completion status 0x109 the call returns success with the output
buffer never populated — contradicting the claim, the spec's "io-error if
the admin command fails at the driver/hardware level", and the header's
own documented `-EIO if ioctl fails`.  The driver-errno path, by
contrast, is mapped correctly to a negative status. -/
theorem C3_hw_status_conflated :
    (ochrance_nvme_read_smart hwFailDev (some "d") (some 0) [7]).status = 0
    ∧ (ochrance_nvme_read_smart hwFailDev (some "d") (some 0) [7]).infoBuf = [7]
    ∧ (ochrance_nvme_read_smart adminFailDev (some "d") (some 0) [7]).status
      = -(eioErrno : Int) :=
  ⟨rfl, rfl, rfl⟩

/-- C1 counterexample: the claim as stated fails, because the C code
computes the offset as a `uint64_t` product (`lba * block_size`) reduced
mod 2^64 before the cast to `off_t`.  At `lba = 2^63`, `block_size = 2`,
the positioned read is issued at offset 0, not at the exact integer
product 2^64. -/
theorem C1_offset_overflow_counterexample :
    (ochrance_nvme_read_block mockDev (some "d") (2 ^ 63) (some [0, 0]) 2).preads
      = [((0 : Int), 2)]
    ∧ ((0 : Int) ≠ ((2 ^ 63 * 2 : Nat) : Int)) := by
  constructor
  · rfl
  · decide

/-- C1 amended: whenever the exact product `lba * block_size` fits in a
signed 64-bit `off_t` (is below 2^63), the byte offset passed to the
positioned read/write equals the exact integer product; in particular
`lba = 10`, `block_size = 4096` yields offset 40960. -/
theorem C1_offset_exact (dev : Dev) (path : Option String) (lba : Nat)
    (buf : List Nat) (bs : Nat) (hbs : bs ≠ 0) (hfit : lba * bs < 2 ^ 63)
    (hro : dev.openRO path = none) (hwo : dev.openWO path = none) :
    (ochrance_nvme_read_block dev path lba (some buf) bs).preads
      = [(((lba * bs : Nat) : Int), bs)]
    ∧ (ochrance_nvme_write_block dev path lba (some buf) bs).pwrites
      = [(((lba * bs : Nat) : Int), bs)]
    ∧ blockOffset 10 4096 = 40960 := by
  have hoff := blockOffset_of_fit lba bs hfit
  refine ⟨?_, ?_, by decide⟩
  · rw [read_block_preads dev path lba buf bs hbs hro, hoff]
  · rw [write_block_pwrites dev path lba buf bs hbs hwo, hoff]

/-- Witness for the amended C1 at the spec's concrete scenario:
`lba = 10`, `block_size = 4096` issues the read and the write at byte
offset 40960. -/
theorem C1_offset_exact_witness :
    (ochrance_nvme_read_block mockDev (some "d") 10 (some [0]) 4096).preads
      = [((40960 : Int), 4096)]
    ∧ (ochrance_nvme_write_block mockDev (some "d") 10 (some [0]) 4096).pwrites
      = [((40960 : Int), 4096)] := by
  have h := C1_offset_exact mockDev (some "d") 10 [0] 4096 (by decide)
    (by norm_num) rfl rfl
  exact ⟨by rw [h.1]; norm_num, by rw [h.2.1]; norm_num⟩

/-- C5 counterexample: the claim asserts a null device path yields
InvalidArgument for every operation, but `ochrance_nvme_read_block` and
`ochrance_nvme_write_block` pass the path straight to `open` without a
NULL check (only `open_nvme`, used by `ochrance_nvme_read_smart`, checks
it).  On a platform where `open(NULL, ...)` fails with `EFAULT` — the
Linux behaviour — both block operations return `-EFAULT`, not `-EINVAL`. -/
theorem C5_null_path_counterexample :
    (ochrance_nvme_read_block nullPathDev none 0 (some [0]) 1).status
      = -(EFAULT : Int)
    ∧ (ochrance_nvme_read_block nullPathDev none 0 (some [0]) 1).status
      ≠ -(EINVAL : Int)
    ∧ (ochrance_nvme_write_block nullPathDev none 0 (some [0]) 1).status
      = -(EFAULT : Int)
    ∧ (ochrance_nvme_write_block nullPathDev none 0 (some [0]) 1).status
      ≠ -(EINVAL : Int) := by
  refine ⟨rfl, by decide, rfl, by decide⟩

/-- C5 amended: a null/absent buffer or a zero block size yields
InvalidArgument from `ochrance_nvme_read_block` and
`ochrance_nvme_write_block` without any device open being attempted, and
for `ochrance_nvme_read_smart` a null output buffer or a null device path
yields InvalidArgument without any open; for the block operations a null
device path is passed to the underlying open, whose platform-defined
error is returned instead. -/
theorem C5_invalid_argument (dev : Dev) (path : Option String) (lba : Nat)
    (buf : Option (List Nat)) (bs : Nat) (addr : Nat) (infoBuf : List Nat)
    (hinv : buf = none ∨ bs = 0) :
    ((ochrance_nvme_read_block dev path lba buf bs).status = -(EINVAL : Int)
      ∧ (ochrance_nvme_read_block dev path lba buf bs).opens = 0
      ∧ (ochrance_nvme_write_block dev path lba buf bs).status = -(EINVAL : Int)
      ∧ (ochrance_nvme_write_block dev path lba buf bs).opens = 0)
    ∧ ((ochrance_nvme_read_smart dev path none infoBuf).status = -(EINVAL : Int)
      ∧ (ochrance_nvme_read_smart dev path none infoBuf).opens = 0)
    ∧ ((ochrance_nvme_read_smart dev none (some addr) infoBuf).status = -(EINVAL : Int)
      ∧ (ochrance_nvme_read_smart dev none (some addr) infoBuf).opens = 0) := by
  refine ⟨?_, ⟨rfl, rfl⟩, ⟨rfl, rfl⟩⟩
  rcases hinv with h | h
  · subst h
    exact ⟨rfl, rfl, rfl, rfl⟩
  · subst h
    cases buf with
    | none => exact ⟨rfl, rfl, rfl, rfl⟩
    | some b => exact ⟨rfl, rfl, rfl, rfl⟩

/-- Witness for the amended C5 at `block_size = 0` with a present buffer. -/
theorem C5_invalid_argument_witness :
    ((ochrance_nvme_read_block mockDev (some "d") 3 (some [0]) 0).status
        = -(EINVAL : Int)
      ∧ (ochrance_nvme_read_block mockDev (some "d") 3 (some [0]) 0).opens = 0
      ∧ (ochrance_nvme_write_block mockDev (some "d") 3 (some [0]) 0).status
        = -(EINVAL : Int)
      ∧ (ochrance_nvme_write_block mockDev (some "d") 3 (some [0]) 0).opens = 0)
    ∧ ((ochrance_nvme_read_smart mockDev (some "d") none [7]).status
        = -(EINVAL : Int)
      ∧ (ochrance_nvme_read_smart mockDev (some "d") none [7]).opens = 0)
    ∧ ((ochrance_nvme_read_smart mockDev none (some 4) [7]).status
        = -(EINVAL : Int)
      ∧ (ochrance_nvme_read_smart mockDev none (some 4) [7]).opens = 0) :=
  C5_invalid_argument mockDev (some "d") 3 (some [0]) 0 4 [7] (Or.inr rfl)

/-- C6: when the underlying transfer primitive moves fewer bytes than
`block_size` (a short transfer), both `ochrance_nvme_read_block` and
`ochrance_nvme_write_block` return `-EIO`, never success: the single
transfer attempt is followed by no retry and no partial-result report. -/
theorem C6_short_transfer (dev : Dev) (p : String) (lba : Nat) (buf : List Nat)
    (bs n m : Nat) (hbs : bs ≠ 0)
    (hro : dev.openRO (some p) = none) (hwo : dev.openWO (some p) = none)
    (hpr : dev.preadN (blockOffset lba bs) bs = Except.ok n) (hn : n < bs)
    (hpw : dev.pwriteN (blockOffset lba bs) bs = Except.ok m) (hm : m < bs) :
    (ochrance_nvme_read_block dev (some p) lba (some buf) bs).status = -(eioErrno : Int)
    ∧ (ochrance_nvme_read_block dev (some p) lba (some buf) bs).status ≠ 0
    ∧ (ochrance_nvme_write_block dev (some p) lba (some buf) bs).status = -(eioErrno : Int)
    ∧ (ochrance_nvme_write_block dev (some p) lba (some buf) bs).status ≠ 0 := by
  have hne : n ≠ bs := Nat.ne_of_lt hn
  have hme : m ≠ bs := Nat.ne_of_lt hm
  have h1 : (ochrance_nvme_read_block dev (some p) lba (some buf) bs).status
      = -(eioErrno : Int) := by
    simp [ochrance_nvme_read_block, hbs, hro, hpr, hne]
  have h2 : (ochrance_nvme_write_block dev (some p) lba (some buf) bs).status
      = -(eioErrno : Int) := by
    simp [ochrance_nvme_write_block, hbs, hwo, hpw, hme]
  exact ⟨h1, by rw [h1]; decide, h2, by rw [h2]; decide⟩

/-- Witness for C6: a device whose transfers are one byte short. -/
theorem C6_short_transfer_witness :
    (ochrance_nvme_read_block shortDev (some "d") 3 (some [0, 0]) 2).status
      = -(eioErrno : Int)
    ∧ (ochrance_nvme_read_block shortDev (some "d") 3 (some [0, 0]) 2).status ≠ 0
    ∧ (ochrance_nvme_write_block shortDev (some "d") 3 (some [0, 0]) 2).status
      = -(eioErrno : Int)
    ∧ (ochrance_nvme_write_block shortDev (some "d") 3 (some [0, 0]) 2).status ≠ 0 :=
  C6_short_transfer shortDev "d" 3 [0, 0] 2 1 1 (by decide) rfl rfl rfl
    (by decide) rfl (by decide)

/-- C8: a write against a read-only target surfaces as `-EROFS` (the
distinguishable read-only-target cause), whether the rejection happens at
`open(O_WRONLY)` or at the `pwrite` itself, and `-EROFS` is distinct from
the generic `-EIO` and from success. -/
theorem C8_readonly_target (dev : Dev) (p : String) (lba : Nat)
    (buf : List Nat) (bs : Nat) (hbs : bs ≠ 0) :
    (dev.openWO (some p) = some EROFS →
      (ochrance_nvme_write_block dev (some p) lba (some buf) bs).status
        = -(EROFS : Int))
    ∧ (dev.openWO (some p) = none →
       dev.pwriteN (blockOffset lba bs) bs = Except.error EROFS →
      (ochrance_nvme_write_block dev (some p) lba (some buf) bs).status
        = -(EROFS : Int))
    ∧ -(EROFS : Int) ≠ -(eioErrno : Int) ∧ -(EROFS : Int) ≠ 0 := by
  refine ⟨?_, ?_, by decide, by decide⟩
  · intro hw
    simp [ochrance_nvme_write_block, hbs, hw]
  · intro hw hp
    simp [ochrance_nvme_write_block, hbs, hw, hp]

/-- Witness for C8: a device rejecting the write-only open with `EROFS`. -/
theorem C8_readonly_target_witness :
    (ochrance_nvme_write_block roDev (some "d") 0 (some [1]) 1).status
      = -(EROFS : Int)
    ∧ -(EROFS : Int) ≠ -(eioErrno : Int) ∧ -(EROFS : Int) ≠ 0 :=
  let h := C8_readonly_target roDev "d" 0 [1] 1 (by decide)
  ⟨h.1 rfl, h.2.2.1, h.2.2.2⟩

/-- C9: when the device path does not resolve (every open fails with
`ENOENT`), all three operations return `-ENOENT` and leave the caller's
output buffer entirely unwritten; the write path also leaves the device
state untouched. -/
theorem C9_notfound (dev : Dev) (p : String) (lba : Nat) (buf : List Nat)
    (bs : Nat) (addr : Nat) (infoBuf : List Nat) (hbs : bs ≠ 0)
    (hro : dev.openRO (some p) = some ENOENT)
    (hwo : dev.openWO (some p) = some ENOENT) :
    ((ochrance_nvme_read_smart dev (some p) (some addr) infoBuf).status
        = -(ENOENT : Int)
      ∧ (ochrance_nvme_read_smart dev (some p) (some addr) infoBuf).infoBuf
        = infoBuf)
    ∧ ((ochrance_nvme_read_block dev (some p) lba (some buf) bs).status
        = -(ENOENT : Int)
      ∧ (ochrance_nvme_read_block dev (some p) lba (some buf) bs).buffer
        = some buf)
    ∧ ((ochrance_nvme_write_block dev (some p) lba (some buf) bs).status
        = -(ENOENT : Int)
      ∧ (ochrance_nvme_write_block dev (some p) lba (some buf) bs).buffer
        = some buf
      ∧ (ochrance_nvme_write_block dev (some p) lba (some buf) bs).dev = dev) := by
  have hop : open_nvme dev (some p) = Except.error (-(ENOENT : Int), 1) := by
    simp [open_nvme, hro]
  refine ⟨⟨?_, ?_⟩, ⟨?_, ?_⟩, ⟨?_, ?_, ?_⟩⟩ <;>
    simp [ochrance_nvme_read_smart, ochrance_nvme_read_block,
      ochrance_nvme_write_block, hop, hbs, hro, hwo]

/-- Witness for C9: a device on which every open fails with `ENOENT`. -/
theorem C9_notfound_witness :
    ((ochrance_nvme_read_smart absentDev (some "d") (some 0) [7]).status
        = -(ENOENT : Int)
      ∧ (ochrance_nvme_read_smart absentDev (some "d") (some 0) [7]).infoBuf = [7])
    ∧ ((ochrance_nvme_read_block absentDev (some "d") 1 (some [9]) 1).status
        = -(ENOENT : Int)
      ∧ (ochrance_nvme_read_block absentDev (some "d") 1 (some [9]) 1).buffer
        = some [9])
    ∧ ((ochrance_nvme_write_block absentDev (some "d") 1 (some [9]) 1).status
        = -(ENOENT : Int)
      ∧ (ochrance_nvme_write_block absentDev (some "d") 1 (some [9]) 1).buffer
        = some [9]
      ∧ (ochrance_nvme_write_block absentDev (some "d") 1 (some [9]) 1).dev
        = absentDev) :=
  C9_notfound absentDev "d" 1 [9] 1 0 [7] (by decide) rfl rfl

/-- C10: `ochrance_nvme_write_block` takes its buffer as `const void *`
and only ever passes it to `pwrite`: on every outcome the caller's input
buffer is returned unchanged. -/
theorem C10_write_block_const_buffer (dev : Dev) (path : Option String)
    (lba : Nat) (buf : Option (List Nat)) (bs : Nat) :
    (ochrance_nvme_write_block dev path lba buf bs).buffer = buf := by
  cases buf with
  | none => rfl
  | some b =>
    by_cases h : bs = 0
    · simp [ochrance_nvme_write_block, h]
    · simp only [ochrance_nvme_write_block, if_neg h]
      cases dev.openWO path with
      | some e => rfl
      | none =>
        cases dev.pwriteN (blockOffset lba bs) bs with
        | error e => rfl
        | ok n =>
          dsimp only
          split <;> rfl

/-- A transfer of `n` bytes delivers exactly `n` bytes. -/
lemma readData_length (store : Int → Nat) (off : Int) (n : Nat) :
    (readData store off n).length = n := by
  simp [readData]

/-- Overwriting a buffer of exactly the transfer length replaces it with
the transferred bytes. -/
lemma writeBytes_full (buf data : List Nat) (h : buf.length = data.length) :
    writeBytes buf data = data := by
  unfold writeBytes
  rw [← h, List.drop_length, List.append_nil]

/-- C2: round-trip idempotence over the block-device model — with a
readable, writable backing store whose transfers are full,
`ochrance_nvme_read_block` followed by `ochrance_nvme_write_block` of the
bytes just read to the same lba, followed by `ochrance_nvme_read_block`
again, succeeds throughout and returns byte-identical content. -/
theorem C2_roundtrip (dev : Dev) (p : String) (lba : Nat) (bs : Nat)
    (buf0 buf2 : List Nat) (hbs : bs ≠ 0)
    (hb0 : buf0.length = bs) (hb2 : buf2.length = bs)
    (hro : dev.openRO (some p) = none) (hwo : dev.openWO (some p) = none)
    (hpr : ∀ o c, dev.preadN o c = Except.ok c)
    (hpw : ∀ o c, dev.pwriteN o c = Except.ok c) :
    let r1 := ochrance_nvme_read_block dev (some p) lba (some buf0) bs
    let b1 := r1.buffer.getD []
    let w := ochrance_nvme_write_block r1.dev (some p) lba (some b1) bs
    let r2 := ochrance_nvme_read_block w.dev (some p) lba (some buf2) bs
    r1.status = 0 ∧ w.status = 0 ∧ r2.status = 0 ∧ r2.buffer = r1.buffer := by
  intro r1 b1 w r2
  have hdlen : (readData dev.store (blockOffset lba bs) bs).length = bs :=
    readData_length dev.store (blockOffset lba bs) bs
  have h1 : r1 = ⟨0, some (writeBytes buf0 (readData dev.store (blockOffset lba bs) bs)),
      dev, 1, [(blockOffset lba bs, bs)], []⟩ :=
    read_block_ok dev p lba buf0 bs hbs hro (hpr (blockOffset lba bs) bs)
  have hwb0 : writeBytes buf0 (readData dev.store (blockOffset lba bs) bs)
      = readData dev.store (blockOffset lba bs) bs :=
    writeBytes_full buf0 _ (by rw [hdlen, hb0])
  have hr1buf : r1.buffer = some (readData dev.store (blockOffset lba bs) bs) := by
    rw [h1]
    exact congrArg some hwb0
  have hb1 : b1 = readData dev.store (blockOffset lba bs) bs := by
    show r1.buffer.getD [] = _
    rw [hr1buf]
    rfl
  have hb1len : b1.length = bs := by rw [hb1]; exact hdlen
  have hw : w = ⟨0, some b1,
      { dev with store := updStore dev.store (blockOffset lba bs)
                   ((b1.take bs).take bs) }, 1, [], [(blockOffset lba bs, bs)]⟩ := by
    show ochrance_nvme_write_block r1.dev (some p) lba (some b1) bs = _
    rw [h1]
    exact write_block_ok dev p lba b1 bs hbs hwo (hpw (blockOffset lba bs) bs)
  have htake : (b1.take bs).take bs = b1 := by
    rw [← hb1len, List.take_length, List.take_length]
  have hstore : ∀ o, w.dev.store o = dev.store o := by
    intro o
    rw [hw]
    show updStore dev.store (blockOffset lba bs) ((b1.take bs).take bs) o = dev.store o
    rw [htake, hb1]
    exact updStore_readData dev.store (blockOffset lba bs) bs o
  have h2 : r2 = ⟨0, some (writeBytes buf2 (readData w.dev.store (blockOffset lba bs) bs)),
      w.dev, 1, [(blockOffset lba bs, bs)], []⟩ :=
    read_block_ok w.dev p lba buf2 bs hbs (by rw [hw]; exact hro)
      (by rw [hw]; exact hpr (blockOffset lba bs) bs)
  have hcong : readData w.dev.store (blockOffset lba bs) bs
      = readData dev.store (blockOffset lba bs) bs :=
    readData_congr _ _ _ _ hstore
  have hr2buf : r2.buffer = some b1 := by
    rw [h2]
    refine congrArg some ?_
    rw [hcong, writeBytes_full buf2 _ (by rw [hdlen, hb2]), hb1]
  refine ⟨by rw [h1], by rw [hw], by rw [h2], ?_⟩
  rw [hr2buf, hr1buf, hb1]

/-- Witness for C2 on a concrete mock device: reading block 1 of size 2
yields bytes (2, 3); writing them back and re-reading returns the same
bytes with success throughout. -/
theorem C2_roundtrip_witness :
    (ochrance_nvme_read_block mockDev (some "d") 1 (some [9, 9]) 2).status = 0
    ∧ (ochrance_nvme_write_block
        (ochrance_nvme_read_block mockDev (some "d") 1 (some [9, 9]) 2).dev
        (some "d") 1
        (some ((ochrance_nvme_read_block mockDev (some "d") 1
          (some [9, 9]) 2).buffer.getD [])) 2).status = 0
    ∧ (ochrance_nvme_read_block
        (ochrance_nvme_write_block
          (ochrance_nvme_read_block mockDev (some "d") 1 (some [9, 9]) 2).dev
          (some "d") 1
          (some ((ochrance_nvme_read_block mockDev (some "d") 1
            (some [9, 9]) 2).buffer.getD [])) 2).dev
        (some "d") 1 (some [8, 8]) 2).status = 0
    ∧ (ochrance_nvme_read_block
        (ochrance_nvme_write_block
          (ochrance_nvme_read_block mockDev (some "d") 1 (some [9, 9]) 2).dev
          (some "d") 1
          (some ((ochrance_nvme_read_block mockDev (some "d") 1
            (some [9, 9]) 2).buffer.getD [])) 2).dev
        (some "d") 1 (some [8, 8]) 2).buffer
      = (ochrance_nvme_read_block mockDev (some "d") 1 (some [9, 9]) 2).buffer :=
  C2_roundtrip mockDev "d" 1 2 [9, 9] [8, 8] (by decide) rfl rfl rfl rfl
    (fun _ _ => rfl) (fun _ _ => rfl)

end NvmeShim
